import Mathlib

/-!
Verification development for the Style Alchemist lookbook generator
(`src/index.tsx`).

The embedding covers the prompt-assembly and image-crop/export pipeline:

* the data model (`File`, `Blob`, `InlineData`, `Part`, `ShotType`);
* the two system-prompt templates and the editing-mode prompt;
* the prompt composer inside `handleGenerate` (fresh and refinement
  branches), modelled as pure list construction (`freshParts`,
  `refinementParts`, `composeParts`);
* the event handler `handleGenerate` itself, modelled as a state
  transformer over an explicit `AppState`, with the outcomes of the
  asynchronous operations (image-dimension read-back, fetch of the prior
  result, the generation API call) supplied through a `GenEnv` record,
  and with the submitted request recorded in the returned `GenResult`;
* the classification effect `identifyItemCategory`;
* the startup credential handling (`initClient`);
* the crop computation inside `handleDownload`, over exact rationals.
-/

namespace StyleAlchemist

/-- An uploaded file: name, base64 payload (as produced by
`FileReader.readAsDataURL` after stripping the data-url header), and MIME
type (`file.type`). -/
structure File where
  name : String
  data : String
  mimeType : String
deriving DecidableEq, Repr

/-- A fetched blob: payload and MIME type (`blob.type`). -/
structure Blob where
  data : String
  mimeType : String
deriving DecidableEq, Repr

/-- The `inlineData` payload of an image content segment. -/
structure InlineData where
  data : String
  mimeType : String
deriving DecidableEq, Repr

/-- One content segment of a generation request (`Part` in the source):
either a text segment or an encoded-image segment. -/
inductive Part where
  | text (text : String)
  | image (inlineData : InlineData)
deriving DecidableEq, Repr

/-- `fileToGenerativePart` (src/index.tsx lines 24-36): reads the file and
wraps its base64 payload and MIME type as an image segment. -/
def fileToGenerativePart (file : File) : Part :=
  Part.image ⟨file.data, file.mimeType⟩

/-- The selected shot type (`'model' | 'product'`). -/
inductive ShotType where
  | model
  | product
deriving DecidableEq, Repr

/-- `accessoryCategories` (line 164). -/
def accessoryCategories : List String :=
  ["Watch", "Bracelet", "Ring", "Necklace", "Earrings", "Handbag"]

/-- `MODEL_SHOT_SYSTEM_PROMPT` (lines 39-67). -/
def MODEL_SHOT_SYSTEM_PROMPT : String :=
  "\n## ROLE & MISSION ##\nYou are a world-class AI Creative Director known as \"The Alchemist.\" Your purpose is to generate stunning lookbook photographs by interpreting creative direction from multiple sources.\n\n## ZERO-TOLERANCE POLICY ON CONTENT COPYING ##\nTHIS IS THE MOST IMPORTANT RULE. FAILURE TO FOLLOW IT IS A COMPLETE FAILURE OF THE TASK.\n\n- The image provided as 'AESTHETIC INSPIRATION PHOTO' is for STYLE, MOOD, AND LIGHTING ONLY.\n- It is ABSOLUTELY PROHIBITED to copy, replicate, transfer, or be inspired by any PEOPLE, FACES, or specific identifiable OBJECTS from the 'AESTHETIC INSPIRATION PHOTO'.\n- The generated human model MUST BE A COMPLETELY NEW, UNIQUE, AND ARTIFICIALLY GENERATED PERSON. They must not look like the person in the inspiration photo. Any resemblance is a failure.\n\n## HIERARCHY OF CREATIVE DIRECTION ##\nYou will be given multiple inputs. You MUST process them in this order of priority:\n\n1.  **HERO ITEM PHOTO:** This is the product to be featured. It is sacred.\n    -   **Hero Item Integrity:** You MUST NOT alter the item's fundamental shape, type, or design. A t-shirt must remain a t-shirt. Preserve its original form factor perfectly.\n    -   The item MUST be extracted perfectly and placed realistically on the generated model.\n    -   The lighting on the Hero Item MUST match the final scene's lighting.\n\n2.  **CREATIVE BRIEF (Text Prompt):** If provided, this text dictates the **subject and setting** of the scene (e.g., \"a model in a moody, dark library\"). This overrides any subject/setting from the inspiration photo.\n\n3.  **AESTHETIC INSPIRATION PHOTO:** Use this **ONLY** as an 'Aesthetic Filter' for the final image's *feel*.\n    -   **IF a Creative Brief exists:** Apply the inspiration photo's color palette, lighting, mood, and photographic genre to the scene described in the text prompt. For example, if the inspiration is a sunny beach, but the prompt is \"dark library,\" you MUST generate a dark library that has the *warm light quality and color grading* of the beach photo. **DO NOT generate a beach.**\n    -   **IF NO Creative Brief exists:** You may use the general setting from the inspiration photo (e.g., a forest, a city street) but you still MUST NOT copy any people, faces, or specific objects from it.\n\n## FINAL OUTPUT ##\n-   The output must be a single, hyper-realistic, professional-quality photograph.\n-   The generated model should have a consistent and realistic appearance, like a professional fashion model.\n"

/-- `PRODUCT_SHOT_SYSTEM_PROMPT` (lines 69-85). -/
def PRODUCT_SHOT_SYSTEM_PROMPT : String :=
  "\n## ROLE & MISSION ##\nYou are a world-class AI Creative Director known as \"The Alchemist.\" Your purpose is to generate stunning product photographs.\n\n## CORE DIRECTIVE: PRODUCT SHOT ##\n- You MUST generate a 'product shot' or 'still life' photograph.\n- CRITICAL: DO NOT generate any human model, person, hand, or any body part. The image must be completely devoid of people.\n- The 'HERO ITEM PHOTO' must be the sole focus, placed in an elegant and appropriate setting that complements its style.\n\n## HIERARCHY OF CREATIVE DIRECTION ##\n1.  **HERO ITEM PHOTO:** This is the product to be featured. It is sacred. Preserve its original form factor perfectly. The lighting on the Hero Item MUST match the final scene's lighting.\n2.  **AESTHETIC INSPIRATION PHOTO:** Use this ONLY as an 'Aesthetic Filter' for the final image's feel (color palette, lighting, mood, photographic genre). DO NOT copy any objects from it.\n3.  **CREATIVE BRIEF (Text Prompt):** If provided, this text dictates the setting for the product (e.g., \"placed on a rustic wooden table\" or \"on a silk cloth\").\n\n## FINAL OUTPUT ##\n- The output must be a single, hyper-realistic, professional-quality photograph of the product.\n"

/-- `isProductShot` (line 217): product shot is active only when the shot
type is `product` and the identified category is one of the accessory
categories (a `null` category, modelled as `none`, is falsy). -/
def isProductShot (shotType : ShotType) (itemCategory : Option String) : Bool :=
  decide (shotType = ShotType.product) &&
    (match itemCategory with
      | some c => accessoryCategories.contains c
      | none => false)

/-- `activeSystemPrompt` (line 218). -/
def activeSystemPrompt (shotType : ShotType) (itemCategory : Option String) : String :=
  if isProductShot shotType itemCategory then PRODUCT_SHOT_SYSTEM_PROMPT
  else MODEL_SHOT_SYSTEM_PROMPT

/-- The fixed text of the editing-mode prompt (line 235) between the active
system prompt and the interpolated pixel width. -/
def editingModePre : String :=
  "\n\n## EDITING MODE: AESTHETIC TRANSFORMATION ##\nYou are now in editing mode. Your task is to apply a NEW creative direction to a previously generated image.\n\n**HIERARCHY OF EDITS (MOST IMPORTANT FIRST):**\n\n1.  **AESTHETIC INSPIRATION PHOTO:** THIS IS YOUR #1 PRIORITY. If an 'AESTHETIC INSPIRATION PHOTO' is provided, you MUST completely transform the 'IMAGE TO EDIT' to match its style, mood, color palette, lighting, and even the general setting. This overrides the original image's aesthetic entirely. (This rule is ignored if you are in Product Shot mode, where the setting is guided by the Creative Brief).\n\n2.  **CREATIVE BRIEF (Text):** This text dictates the scene and action. It works with the 'AESTHETIC INSPIRATION PHOTO' to define the new scene.\n\n3.  **PRESERVATION OF IDENTITY:** While transforming the aesthetic, you MUST preserve the face, body, and identity of the model from the 'IMAGE TO EDIT'. DO NOT CHANGE THE PERSON. (This rule is ignored if you are in Product Shot mode).\n\n4.  **HERO ITEM INTEGRITY:** The 'HERO ITEM' must remain accurate, using the 'HERO ITEM REFERENCE' as a guide.\n\n5.  **ASPECT RATIO LOCK:** The output image MUST EXACTLY MATCH the aspect ratio of the 'IMAGE TO EDIT' (original dimensions were "

/-- The fixed text of the editing-mode prompt (line 235) after the
interpolated `px` dimension marker. -/
def editingModePost : String :=
  ").\n\n**IGNORE THE ORIGINAL AESTHETIC:**\nYou are not making a 'subtle improvement'. You are performing a complete aesthetic overhaul based on the new inputs. The original 'IMAGE TO EDIT' is just a canvas for the model's identity and the hero item.\n"

/-- `editingPrompt` (line 235): the active system prompt followed by the
editing-mode instructions, with the prior result's literal pixel
dimensions interpolated as `WIDTHxHEIGHTpx`. -/
def editingPrompt (sys : String) (width height : Nat) : String :=
  sys ++ editingModePre ++ toString width ++ "x" ++ toString height ++ "px" ++ editingModePost

/-- The fresh-generation branch of `handleGenerate` (lines 257-271):
system prompt, hero-item image, optional inspiration image, creative
brief (with a shot-type-specific default when empty: JS `stylePrompt ||
defaultPrompt`), final action directive. -/
def freshParts (shotType : ShotType) (itemCategory : Option String)
    (heroItem : File) (inspirationPhoto : Option File) (stylePrompt : String) : List Part :=
  let defaultPrompt :=
    if isProductShot shotType itemCategory then "A suitable product shot scene."
    else "A suitable fashion lookbook scene."
  [Part.text (activeSystemPrompt shotType itemCategory),
   Part.text "\n\n---\n\n**INPUT: HERO ITEM PHOTO**",
   fileToGenerativePart heroItem]
  ++ (match inspirationPhoto with
      | some f => [Part.text "\n\n**INPUT: AESTHETIC INSPIRATION PHOTO**", fileToGenerativePart f]
      | none => [])
  ++ [Part.text ("\n\n**INPUT: CREATIVE BRIEF**\n\"" ++ (if stylePrompt = "" then defaultPrompt else stylePrompt) ++ "\""),
      Part.text "\n\n---\n\n**ACTION: Generate the final image now based on all instructions and inputs provided.**"]

/-- The refinement branch of `handleGenerate` (lines 220-255): editing-mode
prompt (embedding the prior result's pixel dimensions), refinement labels,
hero-item image, optional inspiration image, creative brief (with the
default subtle-improvement instruction when empty), the prior result
re-encoded as an image input, final action directive. -/
def refinementParts (shotType : ShotType) (itemCategory : Option String)
    (heroItem : File) (inspirationPhoto : Option File) (stylePrompt : String)
    (previousLookbookFile : File) (width height : Nat) : List Part :=
  [Part.text (editingPrompt (activeSystemPrompt shotType itemCategory) width height),
   Part.text "\n\n---\n\n**CREATIVE DIRECTION FOR REFINEMENT**",
   Part.text "\n\n**INPUT: HERO ITEM REFERENCE**",
   fileToGenerativePart heroItem]
  ++ (match inspirationPhoto with
      | some f => [Part.text "\n\n**INPUT: AESTHETIC INSPIRATION PHOTO**", fileToGenerativePart f]
      | none => [])
  ++ [Part.text ("\n\n**INPUT: CREATIVE BRIEF**\n\"" ++ (if stylePrompt = "" then "Make a subtle improvement to the overall aesthetic." else stylePrompt) ++ "\""),
      Part.text "\n\n---\n\n**IMAGE TO BE EDITED**",
      Part.text "\n\n**INPUT: IMAGE TO EDIT**",
      fileToGenerativePart previousLookbookFile,
      Part.text "\n\n---\n\n**ACTION: Generate the refined image now based on the new creative direction and the image to be edited.**"]

/-- The composed request of `handleGenerate` in either mode: `refine`
carries the re-encoded prior result and its decoded pixel dimensions when
the request is a refinement. -/
def composeParts (shotType : ShotType) (itemCategory : Option String)
    (heroItem : File) (inspirationPhoto : Option File) (stylePrompt : String)
    (refine : Option (File × Nat × Nat)) : List Part :=
  match refine with
  | some (previousLookbookFile, width, height) =>
      refinementParts shotType itemCategory heroItem inspirationPhoto stylePrompt
        previousLookbookFile width height
  | none => freshParts shotType itemCategory heroItem inspirationPhoto stylePrompt

/-- The image segments of a request, in order. -/
def imageSegments (parts : List Part) : List InlineData :=
  parts.filterMap (fun p => match p with
    | Part.image d => some d
    | Part.text _ => none)

/-- The component state of `App` (lines 153-162) that the generation and
classification handlers read and write. -/
structure AppState where
  heroItem : Option File
  inspirationPhoto : Option File
  stylePrompt : String
  generatedImage : Option String
  isLoading : Bool
  error : Option String
  itemCategory : Option String
  isIdentifying : Bool
  shotType : ShotType
deriving DecidableEq, Repr

/-- A thrown JavaScript value as observed by a `catch` block: either an
`Error` (with its `message`) or any other value. -/
inductive Thrown where
  | jsError (message : String)
  | nonError
deriving DecidableEq, Repr

/-- The message a `catch` block reports (lines 292-293):
`err instanceof Error ? err.message : "An unknown error occurred."`. -/
def thrownMessage : Thrown → String
  | Thrown.jsError m => m
  | Thrown.nonError => "An unknown error occurred."

/-- One part of the generation response (`response.candidates[0].content.parts`):
its `inlineData` is present only for image parts. -/
structure RespPart where
  text : Option String
  inlineData : Option InlineData
deriving DecidableEq, Repr

/-- Line 281: the first response part carrying `inlineData`, if any. -/
def findImagePart (parts : List RespPart) : Option RespPart :=
  parts.find? (fun part => part.inlineData.isSome)

/-- Line 285: the displayable data URL built from a response image part. -/
def dataUrlOf (d : InlineData) : String :=
  "data:" ++ d.mimeType ++ ";base64," ++ d.data

/-- The outcomes of the asynchronous operations that `handleGenerate`
awaits: the prior-result dimension read-back (`getImageDimensions`, which
rejects with the image element's error event, never an `Error`), the fetch
of the prior result as a blob, and the `generateContent` API call (whose
success value is `response.candidates[0].content.parts`, the empty list
standing for a response with no candidate). -/
structure GenEnv where
  dimResult : Except Unit (Nat × Nat)
  fetchResult : Except Thrown Blob
  apiResult : Except Thrown (List RespPart)

/-- The observable outcome of one `handleGenerate` invocation: the new
component state, and the request parts submitted to the generation
service (`none` when no API call was made). -/
structure GenResult where
  state : AppState
  submitted : Option (List Part)

/-- Lines 273-296: submit the composed parts to `generateContent` and
handle the response: install the returned image as the generated result,
or fall to the catch block (setting the error message) when the call
throws or the response contains no image part. `setIsLoading(false)` runs
in the `finally` block on every path. -/
def callGenerate (env : GenEnv) (s : AppState) (parts : List Part) : GenResult :=
  match env.apiResult with
  | Except.error t =>
      ⟨{ s with error := some (thrownMessage t), isLoading := false }, some parts⟩
  | Except.ok respParts =>
      match findImagePart respParts with
      | some imagePart =>
          match imagePart.inlineData with
          | some d =>
              ⟨{ s with generatedImage := some (dataUrlOf d), isLoading := false }, some parts⟩
          | none =>
              ⟨{ s with error := some "The Alchemist couldn't generate an image. Try refining your inputs.",
                        isLoading := false }, some parts⟩
      | none =>
          ⟨{ s with error := some "The Alchemist couldn't generate an image. Try refining your inputs.",
                    isLoading := false }, some parts⟩

/-- `handleGenerate` (lines 204-297) as a state transformer. The guard
branches, the composition of the request parts (fresh vs refinement), the
dimension read-back and fetch of the prior result, the API call, and the
error handling of the surrounding try/catch/finally are modelled
explicitly; `ai`/`apiKeyError` are the module-level startup values. -/
def handleGenerate (ai : Bool) (apiKeyError : Option String)
    (env : GenEnv) (s : AppState) : GenResult :=
  if ¬ai then ⟨{ s with error := apiKeyError, isLoading := false }, none⟩
  else
    match s.heroItem with
    | none => ⟨s, none⟩
    | some heroItem =>
        let s1 := { s with isLoading := true, error := none }
        match s.generatedImage with
        | some _ =>
            match env.dimResult with
            | Except.error _ =>
                ⟨{ s1 with error := some (thrownMessage Thrown.nonError), isLoading := false }, none⟩
            | Except.ok (width, height) =>
                match env.fetchResult with
                | Except.error t =>
                    ⟨{ s1 with error := some (thrownMessage t), isLoading := false }, none⟩
                | Except.ok blob =>
                    let previousLookbookFile : File :=
                      ⟨"previous_lookbook.png", blob.data, blob.mimeType⟩
                    callGenerate env s1
                      (composeParts s.shotType s.itemCategory heroItem s.inspirationPhoto
                        s.stylePrompt (some (previousLookbookFile, width, height)))
        | none =>
            callGenerate env s1
              (composeParts s.shotType s.itemCategory heroItem s.inspirationPhoto
                s.stylePrompt none)

/-- The user-facing configuration error message (line 19). -/
def configErrorMessage : String :=
  "The AI Alchemist is not configured correctly. Please contact the administrator to resolve this issue."

/-- The module-level startup values `ai` and `apiKeyError` (lines 11-20). -/
structure Startup where
  ai : Bool
  apiKeyError : Option String
deriving DecidableEq, Repr

/-- Lines 14-20: constructing the service client succeeds iff the API key
is available/valid; on failure `ai` stays `null` and the configuration
error message is recorded. -/
def initClient (apiKeyValid : Bool) : Startup :=
  if apiKeyValid then ⟨true, none⟩ else ⟨false, some configErrorMessage⟩

/-- `identifyItemCategory` (lines 167-201) as a state transformer:
`classifyResult` is the outcome of the classification service call
(success carries `response.text`). On success the trimmed response text
becomes the category; on failure the category defaults to `Other` and the
error state is not touched. -/
def identifyItemCategory (ai : Bool) (apiKeyError : Option String)
    (classifyResult : Except Thrown String) (s : AppState) : AppState :=
  if ¬ai then { s with error := apiKeyError }
  else
    let s1 := { s with isIdentifying := true, itemCategory := none, shotType := ShotType.model }
    let s2 :=
      match classifyResult with
      | Except.ok text => { s1 with itemCategory := some text.trim }
      | Except.error _ => { s1 with itemCategory := some "Other" }
    { s2 with isIdentifying := false }

/-- The download aspect ratio (`'1:1' | '9:16' | '16:9'`, line 304). -/
inductive Aspect where
  | a1x1
  | a9x16
  | a16x9
deriving DecidableEq, Repr

/-- Lines 319-322: the numeric target aspect. -/
def targetAspect : Aspect → ℚ
  | Aspect.a16x9 => 16 / 9
  | Aspect.a9x16 => 9 / 16
  | Aspect.a1x1 => 1

/-- The source crop rectangle `(sx, sy, sWidth, sHeight)` computed by
`handleDownload`. -/
structure CropRect where
  sx : ℚ
  sy : ℚ
  sWidth : ℚ
  sHeight : ℚ
deriving DecidableEq, Repr

/-- The crop computation of `handleDownload` (lines 315-339) over exact
rationals: pillarbox crop (centered) when the source is wider than the
target, letterbox crop (centered by default) when taller, no crop when
equal; for 16:9 targets of taller sources the vertical offset is biased
upward to `(sourceHeight - sHeight) * 0.3`. -/
def computeCrop (sourceWidth sourceHeight : ℚ) (aspect : Aspect) : CropRect :=
  let sourceAspect := sourceWidth / sourceHeight
  let ta := targetAspect aspect
  let base : CropRect :=
    if sourceAspect > ta then
      ⟨(sourceWidth - sourceHeight * ta) / 2, 0, sourceHeight * ta, sourceHeight⟩
    else if sourceAspect < ta then
      ⟨0, (sourceHeight - sourceWidth / ta) / 2, sourceWidth, sourceWidth / ta⟩
    else
      ⟨0, 0, sourceWidth, sourceHeight⟩
  if aspect = Aspect.a16x9 ∧ sourceAspect < ta then
    { base with sy := (sourceHeight - base.sHeight) * (3 / 10) }
  else
    base

/-! ## Helper lemmas -/

/-- Closed-form case analysis of the crop computation. -/
theorem computeCrop_cases (w h : ℚ) (a : Aspect) :
    computeCrop w h a =
      if w / h > targetAspect a then
        ⟨(w - h * targetAspect a) / 2, 0, h * targetAspect a, h⟩
      else if w / h < targetAspect a then
        (if a = Aspect.a16x9 then
          ⟨0, (h - w / targetAspect a) * (3 / 10), w, w / targetAspect a⟩
        else
          ⟨0, (h - w / targetAspect a) / 2, w, w / targetAspect a⟩)
      else
        ⟨0, 0, w, h⟩ := by
  simp only [computeCrop]
  split_ifs <;> first | rfl | tauto | linarith

/-- Whatever the API outcome, `callGenerate` records the submitted parts. -/
theorem callGenerate_submitted (env : GenEnv) (s : AppState) (parts : List Part) :
    (callGenerate env s parts).submitted = some parts := by
  unfold callGenerate
  cases env.apiResult with
  | error t => rfl
  | ok respParts =>
      dsimp only
      cases hf : findImagePart respParts with
      | none => rfl
      | some imagePart =>
          dsimp only
          cases hd : imagePart.inlineData <;> rfl

/-! ## Claims -/

/-- Claim C1: for every composed generation request (fresh or refinement,
any shot type, with or without an inspiration image or brief), the image
segments of the request are, exactly: the hero-item image, then the
inspiration image iff one was supplied, then the re-encoded prior result
iff the request is a refinement. In particular the request contains
exactly one hero-item image segment, an inspiration-image segment iff an
inspiration image was supplied, and a prior-result image segment iff the
request is a refinement. -/
theorem c1_request_image_segments (shotType : ShotType) (itemCategory : Option String)
    (heroItem : File) (inspirationPhoto : Option File) (stylePrompt : String)
    (refine : Option (File × Nat × Nat)) :
    imageSegments (composeParts shotType itemCategory heroItem inspirationPhoto stylePrompt refine)
      = (⟨heroItem.data, heroItem.mimeType⟩ : InlineData)
          :: ((inspirationPhoto.map (fun f => (⟨f.data, f.mimeType⟩ : InlineData))).toList
            ++ (refine.map (fun r => (⟨r.1.data, r.1.mimeType⟩ : InlineData))).toList) := by
  cases refine with
  | none => cases inspirationPhoto <;> rfl
  | some r =>
      obtain ⟨prev, width, height⟩ := r
      cases inspirationPhoto <;> rfl

/-- Claim C5: when the classification call fails, the resulting item
category is exactly `Other` and the user-visible error state is left
unchanged. -/
theorem c5_classification_failure_defaults_to_other (apiKeyError : Option String)
    (t : Thrown) (s : AppState) :
    (identifyItemCategory true apiKeyError (Except.error t) s).itemCategory = some "Other"
    ∧ (identifyItemCategory true apiKeyError (Except.error t) s).error = s.error :=
  ⟨rfl, rfl⟩

/-- Claim C7: when the API credential is missing or invalid at startup,
every generation attempt, from any state and whatever the environment
would answer, resolves to the single descriptive configuration error
message and submits nothing to the service (no prompt parts are composed,
no network call is attempted). -/
theorem c7_missing_credential_fails_closed (env : GenEnv) (s : AppState) :
    handleGenerate (initClient false).ai (initClient false).apiKeyError env s
      = ⟨{ s with error := some configErrorMessage, isLoading := false }, none⟩ :=
  rfl

/-- Claim C8: when a refinement's prior-result dimension read-back fails
(the image decode rejects), the attempt fails with a user-visible error
(the catch block's generic message, since the rejection value is the
error event, not an `Error`) and no generation request is submitted to
the service. -/
theorem c8_dimension_readback_failure_aborts (apiKeyError : Option String)
    (env : GenEnv) (s : AppState) (heroItem : File) (url : String)
    (hhero : s.heroItem = some heroItem)
    (hprior : s.generatedImage = some url)
    (hdim : env.dimResult = Except.error ()) :
    (handleGenerate true apiKeyError env s).state.error = some "An unknown error occurred."
    ∧ (handleGenerate true apiKeyError env s).submitted = none := by
  constructor <;> simp [handleGenerate, hhero, hprior, hdim, thrownMessage]

/-- Witness for C8: a concrete refinement state whose dimension read-back
fails. -/
theorem c8_witness :
    (handleGenerate true none
        ⟨Except.error (), Except.ok ⟨"pd", "image/png"⟩, Except.error Thrown.nonError⟩
        ⟨some ⟨"hero.png", "hd", "image/png"⟩, none, "", some "data:image/png;base64,xyz",
          false, none, none, false, ShotType.model⟩).state.error
      = some "An unknown error occurred."
    ∧ (handleGenerate true none
        ⟨Except.error (), Except.ok ⟨"pd", "image/png"⟩, Except.error Thrown.nonError⟩
        ⟨some ⟨"hero.png", "hd", "image/png"⟩, none, "", some "data:image/png;base64,xyz",
          false, none, none, false, ShotType.model⟩).submitted = none :=
  c8_dimension_readback_failure_aborts none _ _ _ _ rfl rfl rfl

/-- Claim C2: the export crop rectangle: when the source is wider than the
target aspect, full height is kept and the width is cropped, horizontally
centered; when the source is taller (and the target is not 16:9), full
width is kept and the height is cropped, vertically centered; when the
aspects are equal, the full source rectangle is used. -/
theorem c2_crop_formulas (w h : ℚ) (a : Aspect) :
    (w / h > targetAspect a →
      computeCrop w h a = ⟨(w - h * targetAspect a) / 2, 0, h * targetAspect a, h⟩)
    ∧ (w / h < targetAspect a → a ≠ Aspect.a16x9 →
      computeCrop w h a = ⟨0, (h - w / targetAspect a) / 2, w, w / targetAspect a⟩)
    ∧ (w / h = targetAspect a → computeCrop w h a = ⟨0, 0, w, h⟩) := by
  rw [computeCrop_cases]
  refine ⟨fun hgt => ?_, fun hlt hne => ?_, fun heq => ?_⟩
  · rw [if_pos hgt]
  · rw [if_neg (asymm hlt), if_pos hlt, if_neg hne]
  · rw [if_neg (by rw [heq]; exact lt_irrefl _), if_neg (by rw [heq]; exact lt_irrefl _)]

/-- Witness for C2: a 1920×1080 source cropped to 1:1 keeps the full
height and center-crops the width: sWidth = 1080, sx = 420, sy = 0,
sHeight = 1080. -/
theorem c2_witness :
    (1920 : ℚ) / 1080 > targetAspect Aspect.a1x1
    ∧ computeCrop 1920 1080 Aspect.a1x1 = ⟨420, 0, 1080, 1080⟩ := by
  have hgt : (1920 : ℚ) / 1080 > targetAspect Aspect.a1x1 := by
    norm_num [targetAspect]
  refine ⟨hgt, ?_⟩
  rw [(c2_crop_formulas 1920 1080 Aspect.a1x1).1 hgt]
  norm_num [targetAspect]

/-- Claim C4: for a source strictly taller than 16:9 cropped to a 16:9
target, the crop keeps the full width, sets sHeight = w / (16/9), and
biases the vertical offset upward to (h - sHeight) * 0.3 instead of the
centered value. -/
theorem c4_sixteen_nine_upward_bias (w h : ℚ) (hh : 0 < h)
    (hlt : w / h < 16 / 9) :
    (computeCrop w h Aspect.a16x9).sHeight = w / (16 / 9)
    ∧ (computeCrop w h Aspect.a16x9).sy = (h - w / (16 / 9)) * (3 / 10)
    ∧ (computeCrop w h Aspect.a16x9).sy
        ≠ (h - (computeCrop w h Aspect.a16x9).sHeight) / 2 := by
  have hta : targetAspect Aspect.a16x9 = 16 / 9 := rfl
  have hcrop : computeCrop w h Aspect.a16x9
      = ⟨0, (h - w / (16 / 9)) * (3 / 10), w, w / (16 / 9)⟩ := by
    rw [computeCrop_cases, hta, if_neg (asymm hlt), if_pos hlt, if_pos rfl]
  have hs : w / ((16 : ℚ) / 9) < h := by
    rw [div_lt_iff₀ (by norm_num : (0 : ℚ) < 16 / 9)]
    calc w < (16 / 9) * h := by rw [div_lt_iff₀ hh] at hlt; linarith
    _ = h * (16 / 9) := mul_comm _ _
  rw [hcrop]
  refine ⟨rfl, rfl, fun hc => ?_⟩
  simp only at hc
  nlinarith [hc]

/-- Witness for C4: a 1080×1920 source cropped to 16:9 yields
sHeight = 607.5 = 1215/2 and sy = 393.75 = 1575/4, which is not the
centered value 656.25 = (1920 - 1215/2)/2. -/
theorem c4_witness :
    (0 : ℚ) < 1920 ∧ (1080 : ℚ) / 1920 < 16 / 9
    ∧ (computeCrop 1080 1920 Aspect.a16x9).sHeight = 1215 / 2
    ∧ (computeCrop 1080 1920 Aspect.a16x9).sy = 1575 / 4
    ∧ (computeCrop 1080 1920 Aspect.a16x9).sy
        ≠ (1920 - (computeCrop 1080 1920 Aspect.a16x9).sHeight) / 2 := by
  have h0 : (0 : ℚ) < 1920 := by norm_num
  have h1 : (1080 : ℚ) / 1920 < 16 / 9 := by norm_num
  obtain ⟨e1, e2, e3⟩ := c4_sixteen_nine_upward_bias 1080 1920 h0 h1
  refine ⟨h0, h1, ?_, ?_, ?_⟩
  · rw [e1]; norm_num
  · rw [e2]; norm_num
  · exact e3

/-- Claim C9: for every source with positive dimensions and every target
aspect in {1:1, 9:16, 16:9}, the computed crop rectangle has positive
width and height and lies entirely within the source image, under exact
rational arithmetic. -/
theorem c9_crop_within_source (w h : ℚ) (hw : 0 < w) (hh : 0 < h) (a : Aspect) :
    0 ≤ (computeCrop w h a).sx ∧ 0 ≤ (computeCrop w h a).sy
    ∧ (computeCrop w h a).sx + (computeCrop w h a).sWidth ≤ w
    ∧ (computeCrop w h a).sy + (computeCrop w h a).sHeight ≤ h
    ∧ 0 < (computeCrop w h a).sWidth ∧ 0 < (computeCrop w h a).sHeight := by
  have hta : 0 < targetAspect a := by cases a <;> norm_num [targetAspect]
  rw [computeCrop_cases]
  rcases lt_trichotomy (w / h) (targetAspect a) with hlt | heq | hgt
  · rw [if_neg (asymm hlt), if_pos hlt]
    have hwlt : w < targetAspect a * h := by rw [div_lt_iff₀ hh] at hlt; linarith
    have hs : w / targetAspect a < h := by
      rw [div_lt_iff₀ hta]
      calc w < targetAspect a * h := hwlt
      _ = h * targetAspect a := mul_comm _ _
    have hspos : 0 < w / targetAspect a := div_pos hw hta
    by_cases ha : a = Aspect.a16x9
    · rw [if_pos ha]
      refine ⟨le_rfl, ?_, by linarith, ?_, hw, hspos⟩
      · exact mul_nonneg (by linarith) (by norm_num)
      · nlinarith
    · rw [if_neg ha]
      exact ⟨le_rfl, by linarith, by linarith, by linarith, hw, hspos⟩
  · rw [if_neg (by rw [heq]; exact lt_irrefl _), if_neg (by rw [heq]; exact lt_irrefl _)]
    refine ⟨le_rfl, le_rfl, ?_, ?_, hw, hh⟩ <;> dsimp only <;> linarith
  · rw [if_pos hgt]
    have hwgt : targetAspect a * h < w := by
      rw [lt_div_iff₀ hh] at hgt
      linarith
    have hwgt' : h * targetAspect a < w := by rw [mul_comm]; exact hwgt
    exact ⟨by linarith, le_rfl, by linarith, by linarith, mul_pos hh hta, hh⟩

/-- Witness for C9: the crop of a 1920×1080 source to 9:16 stays within
the source rectangle. -/
theorem c9_witness :
    (0 : ℚ) < 1920 ∧ (0 : ℚ) < 1080
    ∧ 0 ≤ (computeCrop 1920 1080 Aspect.a9x16).sx
    ∧ 0 ≤ (computeCrop 1920 1080 Aspect.a9x16).sy
    ∧ (computeCrop 1920 1080 Aspect.a9x16).sx + (computeCrop 1920 1080 Aspect.a9x16).sWidth ≤ 1920
    ∧ (computeCrop 1920 1080 Aspect.a9x16).sy + (computeCrop 1920 1080 Aspect.a9x16).sHeight ≤ 1080
    ∧ 0 < (computeCrop 1920 1080 Aspect.a9x16).sWidth
    ∧ 0 < (computeCrop 1920 1080 Aspect.a9x16).sHeight := by
  have h0 : (0 : ℚ) < 1920 := by norm_num
  have h1 : (0 : ℚ) < 1080 := by norm_num
  obtain ⟨p1, p2, p3, p4, p5, p6⟩ := c9_crop_within_source 1920 1080 h0 h1 Aspect.a9x16
  exact ⟨h0, h1, p1, p2, p3, p4, p5, p6⟩

/-- Claim C6: when the generation call succeeds but its response contains
no image segment, the attempt is reported as a failure: the user-visible
error state is set (to the no-image message) and the generated result is
left unchanged, while the request was actually submitted. -/
theorem c6_no_image_in_response_is_failure (apiKeyError : Option String)
    (env : GenEnv) (s : AppState) (heroItem : File) (respParts : List RespPart)
    (hhero : s.heroItem = some heroItem)
    (hapi : env.apiResult = Except.ok respParts)
    (hnoimg : ∀ p ∈ respParts, p.inlineData = none)
    (hpath : s.generatedImage = none
      ∨ ((∃ d, env.dimResult = Except.ok d) ∧ (∃ b, env.fetchResult = Except.ok b))) :
    (handleGenerate true apiKeyError env s).state.error
      = some "The Alchemist couldn't generate an image. Try refining your inputs."
    ∧ (handleGenerate true apiKeyError env s).state.generatedImage = s.generatedImage
    ∧ (handleGenerate true apiKeyError env s).submitted.isSome := by
  have hfind : findImagePart respParts = none := by
    apply List.find?_eq_none.mpr
    intro p hp
    simp [hnoimg p hp]
  cases hgen : s.generatedImage with
  | none =>
      refine ⟨?_, ?_, ?_⟩ <;>
        simp [handleGenerate, hhero, hgen, callGenerate, hapi, hfind]
  | some url =>
      rcases hpath with hnone | ⟨⟨⟨dw, dh⟩, hdim⟩, ⟨b, hfetch⟩⟩
      · rw [hgen] at hnone; exact absurd hnone (by simp)
      · refine ⟨?_, ?_, ?_⟩ <;>
          simp [handleGenerate, hhero, hgen, hdim, hfetch, callGenerate, hapi, hfind]

/-- Witness for C6: a fresh generation whose response carries a single
text-only part yields the no-image error. -/
theorem c6_witness :
    (handleGenerate true none
        ⟨Except.error (), Except.error Thrown.nonError, Except.ok [⟨some "text only, no image", none⟩]⟩
        ⟨some ⟨"hero.png", "hd", "image/png"⟩, none, "", none,
          false, none, none, false, ShotType.model⟩).state.error
      = some "The Alchemist couldn't generate an image. Try refining your inputs." := by
  have h := c6_no_image_in_response_is_failure none
    ⟨Except.error (), Except.error Thrown.nonError, Except.ok [⟨some "text only, no image", none⟩]⟩
    ⟨some ⟨"hero.png", "hd", "image/png"⟩, none, "", none,
      false, none, none, false, ShotType.model⟩
    ⟨"hero.png", "hd", "image/png"⟩ [⟨some "text only, no image", none⟩]
    rfl rfl (by intro p hp; simp at hp; rw [hp]) (Or.inl rfl)
  exact h.1

/-- Claim C3: for every refinement whose asynchronous reads succeed, the
submitted request is exactly the refinement composition; its emitted
segments contain, in this order: the editing-mode instruction text (whose
text embeds the prior result's literal pixel width and height, exactly
the ones read back by decoding it), the hero-item image, the inspiration
image if supplied, the brief text (with the default subtle-improvement
instruction when the brief is empty), the prior result re-encoded as an
image input, and the final action directive. -/
theorem c3_refinement_order_and_dimensions (apiKeyError : Option String)
    (env : GenEnv) (s : AppState) (heroItem : File) (url : String)
    (width height : Nat) (blob : Blob)
    (hhero : s.heroItem = some heroItem)
    (hprior : s.generatedImage = some url)
    (hdim : env.dimResult = Except.ok (width, height))
    (hfetch : env.fetchResult = Except.ok blob) :
    (handleGenerate true apiKeyError env s).submitted
      = some (refinementParts s.shotType s.itemCategory heroItem s.inspirationPhoto
          s.stylePrompt ⟨"previous_lookbook.png", blob.data, blob.mimeType⟩ width height)
    ∧ List.Sublist
        (Part.text (editingPrompt (activeSystemPrompt s.shotType s.itemCategory) width height)
          :: fileToGenerativePart heroItem
          :: ((s.inspirationPhoto.map fileToGenerativePart).toList
            ++ [Part.text ("\n\n**INPUT: CREATIVE BRIEF**\n\""
                  ++ (if s.stylePrompt = "" then "Make a subtle improvement to the overall aesthetic."
                      else s.stylePrompt) ++ "\""),
                fileToGenerativePart ⟨"previous_lookbook.png", blob.data, blob.mimeType⟩,
                Part.text "\n\n---\n\n**ACTION: Generate the refined image now based on the new creative direction and the image to be edited.**"]))
        (refinementParts s.shotType s.itemCategory heroItem s.inspirationPhoto
          s.stylePrompt ⟨"previous_lookbook.png", blob.data, blob.mimeType⟩ width height)
    ∧ (∃ a b, editingPrompt (activeSystemPrompt s.shotType s.itemCategory) width height
        = a ++ toString width ++ "x" ++ toString height ++ "px" ++ b) := by
  refine ⟨?_, ?_, ?_⟩
  · simp [handleGenerate, hhero, hprior, hdim, hfetch, callGenerate_submitted, composeParts]
  · cases hinsp : s.inspirationPhoto with
    | none =>
        simp only [refinementParts, hinsp, Option.map_none, Option.toList_none,
          List.nil_append, List.cons_append, List.append_nil]
        apply List.Sublist.cons₂
        apply List.Sublist.cons
        apply List.Sublist.cons
        apply List.Sublist.cons₂
        apply List.Sublist.cons₂
        apply List.Sublist.cons
        apply List.Sublist.cons
        apply List.Sublist.cons₂
        exact List.Sublist.refl _
    | some f =>
        simp only [refinementParts, hinsp, Option.map_some, Option.toList_some,
          List.nil_append, List.cons_append, List.append_nil, List.singleton_append]
        apply List.Sublist.cons₂
        apply List.Sublist.cons
        apply List.Sublist.cons
        apply List.Sublist.cons₂
        apply List.Sublist.cons
        apply List.Sublist.cons₂
        apply List.Sublist.cons₂
        apply List.Sublist.cons
        apply List.Sublist.cons
        apply List.Sublist.cons₂
        exact List.Sublist.refl _
  · exact ⟨activeSystemPrompt s.shotType s.itemCategory ++ editingModePre, editingModePost, rfl⟩

/-- Witness for C3: a concrete refinement whose dimension read-back
returns 800×600 submits the refinement composition built from exactly
those dimensions. -/
theorem c3_witness :
    (handleGenerate true none
        ⟨Except.ok (800, 600), Except.ok ⟨"pd", "image/png"⟩, Except.error Thrown.nonError⟩
        ⟨some ⟨"hero.png", "hd", "image/png"⟩, none, "", some "data:image/png;base64,xyz",
          false, none, none, false, ShotType.model⟩).submitted
      = some (refinementParts ShotType.model none ⟨"hero.png", "hd", "image/png"⟩ none ""
          ⟨"previous_lookbook.png", "pd", "image/png"⟩ 800 600) :=
  (c3_refinement_order_and_dimensions none
    ⟨Except.ok (800, 600), Except.ok ⟨"pd", "image/png"⟩, Except.error Thrown.nonError⟩
    ⟨some ⟨"hero.png", "hd", "image/png"⟩, none, "", some "data:image/png;base64,xyz",
      false, none, none, false, ShotType.model⟩
    ⟨"hero.png", "hd", "image/png"⟩ "data:image/png;base64,xyz" 800 600
    ⟨"pd", "image/png"⟩ rfl rfl rfl rfl).1

/-- Claim C10: when the selected shot type is `product` but the item
category is absent or not an accessory category, composition silently
proceeds with the model-shot path: the composed request equals the
model-shot composition, its instruction template is the model-shot
template (not the product-shot one), and an empty brief falls back to the
model-shot default brief. -/
theorem c10_product_without_accessory_uses_model_template
    (itemCategory : Option String) (heroItem : File) (inspirationPhoto : Option File)
    (stylePrompt : String)
    (hcat : ∀ c, itemCategory = some c → c ∉ accessoryCategories) :
    freshParts ShotType.product itemCategory heroItem inspirationPhoto stylePrompt
      = freshParts ShotType.model itemCategory heroItem inspirationPhoto stylePrompt
    ∧ (freshParts ShotType.product itemCategory heroItem inspirationPhoto stylePrompt).head?
      = some (Part.text MODEL_SHOT_SYSTEM_PROMPT)
    ∧ Part.text ("\n\n**INPUT: CREATIVE BRIEF**\n\"" ++ "A suitable fashion lookbook scene." ++ "\"")
      ∈ freshParts ShotType.product itemCategory heroItem inspirationPhoto "" := by
  have hps : isProductShot ShotType.product itemCategory = false := by
    cases itemCategory with
    | none => rfl
    | some c =>
        have hc := hcat c rfl
        simp [isProductShot]
        simpa using hc
  have hps' : isProductShot ShotType.model itemCategory = false := by
    simp [isProductShot]
  refine ⟨?_, ?_, ?_⟩
  · simp [freshParts, activeSystemPrompt, hps, hps']
  · simp [freshParts, activeSystemPrompt, hps]
  · simp [freshParts, activeSystemPrompt, hps]

/-- Witness for C10: with category `Dress` (not an accessory), a product
request composes with the model-shot template. -/
theorem c10_witness :
    (freshParts ShotType.product (some "Dress") ⟨"hero.png", "hd", "image/png"⟩ none "").head?
      = some (Part.text MODEL_SHOT_SYSTEM_PROMPT) :=
  (c10_product_without_accessory_uses_model_template (some "Dress")
    ⟨"hero.png", "hd", "image/png"⟩ none ""
    (by intro c hc; cases hc; decide)).2.1

end StyleAlchemist
